import Mathlib

/-!
Verification of the APIService HTTP client (src/api.js).

The client is shallowly embedded as a pure state machine.  The mutable
instance fields of the JS class become fields of a ClientState record;
every method that mutates the instance is a function from the old state
to the new state.  Asynchrony is irrelevant to the properties proved
here (the JS code awaits every suspension point sequentially), so async
functions become plain functions.  The external fetch transport is an
oracle parameter, indexed by the attempt number, mapping the intercepted
request descriptor to an outcome.  Wall-clock time (Date.now) is an
explicit parameter.  setTimeout-based cache expiry is modelled by the
set of cache keys whose expiry timer is still scheduled, together with
an explicit "the timer for key k fires" transition; clearTimeout is
removal from that set.  Body parsing by content type (json/text/blob)
is abstracted: a response body is an opaque string.  Observable effects
(transport calls, interceptor executions, backoff delays, refresh-hook
invocations) are recorded in an event trace so that absence of an
effect is a provable statement.
-/

namespace APIService

/-- One registered authentication token: value plus scheme
(setAuthToken stores an object with fields token and type). -/
structure AuthToken where
  token : String
  type : String
deriving DecidableEq

/-- Rate-limit configuration (this.rateLimitConfig). -/
structure RateLimitConfig where
  maxRequests : Nat
  windowMs : Nat
deriving DecidableEq

/-- The success envelope returned by handleResponse and request:
fields status, statusText, headers, data, fromCache. -/
structure Response where
  status : Nat
  statusText : String
  headers : List (String × String)
  data : String
  fromCache : Bool
deriving DecidableEq

/-- Errors raised inside the pipeline.  network is a transport-level
rejection (no status field); rateLimit is the error thrown by
checkRateLimit (it carries the computed wait seconds and no status
field); http is the error built by handleResponse from a non-ok
response, carrying status, parsed body and headers. -/
inductive ApiError where
  | network
  | rateLimit (waitSeconds : Int)
  | http (status : Nat) (data : String) (headers : List (String × String))
deriving DecidableEq

/-- The status field of an error object; network and rate-limit errors
have none (undefined in JS). -/
def errStatus : ApiError → Option Nat
  | ApiError.network => none
  | ApiError.rateLimit _ => none
  | ApiError.http s _ _ => some s

/-- The outbound request descriptor built by buildFetchConfig and fed
through the request interceptors into fetch. -/
structure FetchConfig where
  url : String
  method : String
  headers : List (String × String)
  body : Option String
deriving DecidableEq

/-- Outcome of one transport (fetch) call: a rejection (network
failure / abort) or a response with status, statusText, headers and an
already-parsed body. -/
inductive FetchOutcome where
  | fail
  | resp (status : Nat) (statusText : String)
      (headers : List (String × String)) (body : String)
deriving DecidableEq

/-- Per-call options accepted by request: method, headers, body
payload, query params (modelled by their serialized form), cache
opt-out flag, per-call cache TTL. -/
structure RequestConfig where
  method : Option String
  headers : List (String × String)
  data : Option String
  params : Option String
  cache : Option Bool
  cacheTTL : Option Nat
deriving DecidableEq

/-- Observable effects of one request, recorded in order. -/
inductive Event where
  | transportCall
  | reqInterceptorRun
  | respInterceptorRun
  | errInterceptorRun
  | refreshCall
  | delay (ms : Nat)
deriving DecidableEq

/-- The mutable instance state of the APIService class. -/
structure ClientState where
  baseURL : String
  timeout : Nat
  maxRetries : Nat
  retryDelay : Nat
  cacheTTL : Nat
  authToken : Option AuthToken
  refreshToken : Option String
  tokenExpiryTime : Option Int
  requestInterceptors : List (FetchConfig → FetchConfig)
  responseInterceptors : List (Response → Response)
  errorInterceptors : List (ApiError → ApiError)
  cache : List (String × Response)
  cacheTimers : List String
  rateLimitConfig : RateLimitConfig
  requestTimestamps : List Int

/-- JS Map.get: first entry with the given key. -/
def mapGet {α : Type} (m : List (String × α)) (k : String) : Option α :=
  match m.find? (fun p => p.1 == k) with
  | some p => some p.2
  | none => none

/-- JS Map.set: update in place when the key is present, else append. -/
def mapSet {α : Type} (m : List (String × α)) (k : String) (v : α) :
    List (String × α) :=
  if m.any (fun p => p.1 == k) then
    m.map (fun p => if p.1 == k then (k, v) else p)
  else
    m ++ [(k, v)]

/-- JS Map.delete: remove the entry with the given key (no-op when
absent). -/
def mapDelete {α : Type} (m : List (String × α)) (k : String) :
    List (String × α) :=
  m.filter (fun p => !(p.1 == k))

/-- setAuthToken(token, type): stores the token descriptor. -/
def setAuthToken (st : ClientState) (token ty : String) : ClientState :=
  { st with authToken := some { token := token, type := ty } }

/-- setRefreshToken(refreshToken, expiryTime): stores the refresh token
and records the expiry instant Date.now() + expiryTime. -/
def setRefreshToken (st : ClientState) (rt : String) (now expiryTime : Int) :
    ClientState :=
  { st with refreshToken := some rt, tokenExpiryTime := some (now + expiryTime) }

/-- isTokenExpired: false when no expiry instant is recorded, else true
when now is within 60 seconds of (or past) the recorded expiry. -/
def isTokenExpired (st : ClientState) (now : Int) : Bool :=
  match st.tokenExpiryTime with
  | none => false
  | some t => decide (now > t - 60000)

/-- The default refreshAuthToken hook: it only logs a warning and
leaves every field of the client unchanged. -/
def refreshAuthToken (st : ClientState) : ClientState := st

/-- executeRequestInterceptors: left-to-right sequential fold of the
registered request interceptors over the descriptor. -/
def executeRequestInterceptors (ints : List (FetchConfig → FetchConfig))
    (c : FetchConfig) : FetchConfig :=
  ints.foldl (fun acc f => f acc) c

/-- executeResponseInterceptors: left-to-right sequential fold of the
registered response interceptors over the response. -/
def executeResponseInterceptors (ints : List (Response → Response))
    (r : Response) : Response :=
  ints.foldl (fun acc f => f acc) r

/-- executeErrorInterceptors: left-to-right sequential fold of the
registered error interceptors over the error. -/
def executeErrorInterceptors (ints : List (ApiError → ApiError))
    (e : ApiError) : ApiError :=
  ints.foldl (fun acc f => f acc) e

/-- Math.ceil(w / 1000) for an integer number of milliseconds w. -/
def ceilSeconds (w : Int) : Int :=
  (w + 999).ediv 1000

/-- checkRateLimit: prune timestamps at or before now - windowMs, fail
with the wait-seconds value when the pruned count has reached
maxRequests (the pruned sequence is kept, no new timestamp recorded),
else record now and proceed.  The JS reads pruned[0] for the oldest
timestamp; headD 0 matches it on every reachable state (the list is
nonempty whenever maxRequests is at least 1). -/
def checkRateLimit (cfg : RateLimitConfig) (now : Int) (ts : List Int) :
    Except Int Unit × List Int :=
  let windowStart : Int := now - (cfg.windowMs : Int)
  let pruned := ts.filter (fun t => decide (windowStart < t))
  if cfg.maxRequests ≤ pruned.length then
    let oldest := pruned.headD 0
    let waitTime : Int := (cfg.windowMs : Int) - (now - oldest)
    (Except.error (ceilSeconds waitTime), pruned)
  else
    (Except.ok (), pruned ++ [now])

/-- toUpperCase, as per-character upcasing over the string's character
list (the method strings involved are plain ASCII). -/
def jsToUpper (s : String) : String :=
  String.mk (s.data.map Char.toUpper)

/-- String.prototype.startsWith over the character lists. -/
def jsStartsWith (s pre : String) : Bool :=
  pre.data.isPrefixOf s.data

/-- JS (s || dflt) for an optional string: the default is used when the
string is absent or empty (falsy). -/
def jsOr (s : Option String) (dflt : String) : String :=
  match s with
  | none => dflt
  | some v => if v = "" then dflt else v

/-- (config.method || GET).toUpperCase() as used by generateCacheKey
and buildFetchConfig. -/
def resolvedMethod (cfg : RequestConfig) : String :=
  jsToUpper (jsOr cfg.method "GET")

/-- config.method?.toUpperCase() === POST, the test request uses to
exclude POST from cache lookup and cache store (an absent method is
not POST). -/
def methodIsPOST (cfg : RequestConfig) : Bool :=
  match cfg.method with
  | none => false
  | some m => jsToUpper m == "POST"

/-- generateCacheKey(url, config): method, resolved URL and serialized
params joined by colons (empty string when params are absent). -/
def generateCacheKey (url : String) (cfg : RequestConfig) : String :=
  resolvedMethod cfg ++ ":" ++ url ++ ":" ++ cfg.params.getD ""

/-- getFromCache: a present entry is returned with fromCache set to
true (spread of the stored data with fromCache overridden). -/
def getFromCache (cache : List (String × Response)) (key : String) :
    Option Response :=
  match mapGet cache key with
  | some r => some { r with fromCache := true }
  | none => none

/-- setCache(key, data, ttl): cancel any existing timer for the key,
store the entry, schedule a fresh expiry timer for the key.  The timer
duration is not part of the state; a scheduled timer is represented by
the key's membership in the timer set. -/
def setCache (cache : List (String × Response)) (timers : List String)
    (key : String) (r : Response) (ttl : Nat) :
    List (String × Response) × List String :=
  let _ := ttl
  (mapSet cache key r, if timers.contains key then timers else timers ++ [key])

/-- The body of the expiry timer scheduled by setCache: it can run only
while the timer is still scheduled (clearTimeout removes it), and then
deletes the cache entry and the timer handle. -/
def fireCacheExpiry (st : ClientState) (key : String) : ClientState :=
  if st.cacheTimers.contains key then
    { st with
      cache := mapDelete st.cache key,
      cacheTimers := st.cacheTimers.filter (fun k => !(k == key)) }
  else st

/-- clearCache(key): cancel the pending expiry for the key when there
is one, and remove the entry. -/
def clearCache (st : ClientState) (key : String) : ClientState :=
  { st with
    cacheTimers := st.cacheTimers.filter (fun k => !(k == key)),
    cache := mapDelete st.cache key }

/-- clearAllCache(): cancel every pending timer and empty the store. -/
def clearAllCache (st : ClientState) : ClientState :=
  { st with cacheTimers := [], cache := [] }

/-- buildFetchConfig: default JSON content-type header merged with the
caller headers, Authorization header attached when an auth token is
set, body serialized for non-GET methods with a truthy payload, and
the serialized query params appended to the URL. -/
def buildFetchConfig (st : ClientState) (url : String) (cfg : RequestConfig) :
    FetchConfig :=
  let method := resolvedMethod cfg
  let headers := ("Content-Type", "application/json") :: cfg.headers
  let headers := match st.authToken with
    | some a => headers ++ [("Authorization", a.type ++ " " ++ a.token)]
    | none => headers
  let body := match cfg.data with
    | some d => if method != "GET" && d != "" then some d else none
    | none => none
  let url := match cfg.params with
    | some p => if p != "" then url ++ "?" ++ p else url
    | none => url
  { url := url, method := method, headers := headers, body := body }

/-- The resolved absolute URL: pass through when already absolute, else
prefix with the base URL. -/
def resolveURL (st : ClientState) (url : String) : String :=
  if jsStartsWith url "http" then url else st.baseURL ++ url

/-- The descriptor actually handed to the transport: the built request
after the request interceptor chain. -/
def interceptedConfig (st : ClientState) (url : String) (cfg : RequestConfig) :
    FetchConfig :=
  executeRequestInterceptors st.requestInterceptors (buildFetchConfig st url cfg)

/-- handleResponse: a response outside the 2xx range becomes a
structured error carrying status, parsed body and headers; a 2xx
response becomes the success envelope with fromCache false. -/
def handleResponse (status : Nat) (statusText : String)
    (headers : List (String × String)) (body : String) :
    Except ApiError Response :=
  if 200 ≤ status ∧ status < 300 then
    Except.ok { status := status, statusText := statusText,
                headers := headers, data := body, fromCache := false }
  else
    Except.error (ApiError.http status body headers)

/-- isRetryableError: an error without a (truthy) status field is a
network-level failure and is retryable; otherwise retry only on 5xx.
JS reads !error.status, which is also true for a literal status 0. -/
def isRetryableError (e : ApiError) : Bool :=
  match errStatus e with
  | none => true
  | some s => s == 0 || decide (500 ≤ s)

/-- performRequest: build the descriptor, run the request interceptor
chain, call the transport (the attempt index selects the oracle entry
for this call), parse the result, and on success run the response
interceptor chain.  Returns the outcome and the trace of effects. -/
def performRequest (st : ClientState)
    (transport : Nat → FetchConfig → FetchOutcome)
    (attempt : Nat) (url : String) (cfg : RequestConfig) :
    Except ApiError Response × List Event :=
  let ic := interceptedConfig st url cfg
  let reqEvs := st.requestInterceptors.map (fun _ => Event.reqInterceptorRun)
  match transport attempt ic with
  | FetchOutcome.fail =>
      (Except.error ApiError.network, reqEvs ++ [Event.transportCall])
  | FetchOutcome.resp status statusText headers body =>
      match handleResponse status statusText headers body with
      | Except.error e => (Except.error e, reqEvs ++ [Event.transportCall])
      | Except.ok r =>
          (Except.ok (executeResponseInterceptors st.responseInterceptors r),
           reqEvs ++ Event.transportCall ::
             st.responseInterceptors.map (fun _ => Event.respInterceptorRun))

/-- Recursion worker for retryRequest.  The JS recursion is bounded by
the guard attempt < maxRetries; fuel = maxRetries - attempt makes the
same recursion structural, and retryRequest_eq below recovers the
source-shaped equation verbatim. -/
def retryAux (st : ClientState)
    (transport : Nat → FetchConfig → FetchOutcome)
    (url : String) (cfg : RequestConfig) :
    Nat → Nat → Except ApiError Response × List Event
  | fuel, attempt =>
    match performRequest st transport attempt url cfg with
    | (Except.ok r, evs) => (Except.ok r, evs)
    | (Except.error e, evs) =>
      match fuel with
      | 0 => (Except.error e, evs)
      | fuel' + 1 =>
        if isRetryableError e then
          ((retryAux st transport url cfg fuel' (attempt + 1)).1,
           evs ++ Event.delay (st.retryDelay * 2 ^ attempt) ::
             (retryAux st transport url cfg fuel' (attempt + 1)).2)
        else
          (Except.error e, evs)

/-- retryRequest(url, config, attempt): perform the request; on an
error, when attempt < maxRetries and the error is retryable, wait
retryDelay * 2 ^ attempt and retry with attempt + 1, else propagate. -/
def retryRequest (st : ClientState)
    (transport : Nat → FetchConfig → FetchOutcome)
    (url : String) (cfg : RequestConfig) (attempt : Nat) :
    Except ApiError Response × List Event :=
  retryAux st transport url cfg (st.maxRetries - attempt) attempt

/-- The try-block of request: token-refresh check, rate limiting, URL
resolution, cache lookup for non-POST non-opted-out calls, transport
with retry, and cache store on cacheable success.  Returns the
outcome, the new client state and the effect trace. -/
def requestCore (st : ClientState)
    (transport : Nat → FetchConfig → FetchOutcome)
    (now : Int) (url : String) (cfg : RequestConfig) :
    Except ApiError Response × ClientState × List Event :=
  let refreshEvs :=
    if isTokenExpired st now && st.refreshToken.isSome then [Event.refreshCall]
    else []
  match checkRateLimit st.rateLimitConfig now st.requestTimestamps with
  | (Except.error w, pruned) =>
      (Except.error (ApiError.rateLimit w),
       { st with requestTimestamps := pruned }, refreshEvs)
  | (Except.ok _, stamped) =>
      let st1 := { st with requestTimestamps := stamped }
      let fullUrl := resolveURL st url
      let cacheKey := generateCacheKey fullUrl cfg
      let cacheable := !methodIsPOST cfg && !(cfg.cache == some false)
      match (if cacheable then getFromCache st1.cache cacheKey else none) with
      | some cached => (Except.ok cached, st1, refreshEvs)
      | none =>
          let res := retryRequest st1 transport fullUrl cfg 0
          match res.1 with
          | Except.ok r =>
              if cacheable then
                let updated := setCache st1.cache st1.cacheTimers cacheKey r
                  (cfg.cacheTTL.getD st.cacheTTL)
                (Except.ok r,
                 { st1 with cache := updated.1, cacheTimers := updated.2 },
                 refreshEvs ++ res.2)
              else
                (Except.ok r, st1, refreshEvs ++ res.2)
          | Except.error e => (Except.error e, st1, refreshEvs ++ res.2)

/-- request(url, config): the try-block above, with every unrecovered
error passed through the error interceptor chain and re-raised. -/
def request (st : ClientState)
    (transport : Nat → FetchConfig → FetchOutcome)
    (now : Int) (url : String) (cfg : RequestConfig) :
    Except ApiError Response × ClientState × List Event :=
  match requestCore st transport now url cfg with
  | (Except.ok r, st', evs) => (Except.ok r, st', evs)
  | (Except.error e, st', evs) =>
      (Except.error (executeErrorInterceptors st.errorInterceptors e), st',
       evs ++ st.errorInterceptors.map (fun _ => Event.errInterceptorRun))

/-- get(url, config): request with method GET. -/
def get (st : ClientState) (transport : Nat → FetchConfig → FetchOutcome)
    (now : Int) (url : String) (cfg : RequestConfig) :
    Except ApiError Response × ClientState × List Event :=
  request st transport now url { cfg with method := some "GET" }

/-- post(url, data, config): request with method POST, the payload, and
caching disabled. -/
def post (st : ClientState) (transport : Nat → FetchConfig → FetchOutcome)
    (now : Int) (url : String) (d : String) (cfg : RequestConfig) :
    Except ApiError Response × ClientState × List Event :=
  request st transport now url
    { cfg with method := some "POST", data := some d, cache := some false }

/-- put(url, data, config): request with method PUT, the payload, and
caching disabled. -/
def put (st : ClientState) (transport : Nat → FetchConfig → FetchOutcome)
    (now : Int) (url : String) (d : String) (cfg : RequestConfig) :
    Except ApiError Response × ClientState × List Event :=
  request st transport now url
    { cfg with method := some "PUT", data := some d, cache := some false }

/-- patch(url, data, config): request with method PATCH, the payload,
and caching disabled. -/
def patch (st : ClientState) (transport : Nat → FetchConfig → FetchOutcome)
    (now : Int) (url : String) (d : String) (cfg : RequestConfig) :
    Except ApiError Response × ClientState × List Event :=
  request st transport now url
    { cfg with method := some "PATCH", data := some d, cache := some false }

/-- delete(url, config): request with method DELETE and caching
disabled. -/
def deleteReq (st : ClientState) (transport : Nat → FetchConfig → FetchOutcome)
    (now : Int) (url : String) (cfg : RequestConfig) :
    Except ApiError Response × ClientState × List Event :=
  request st transport now url { cfg with method := some "DELETE", cache := some false }

/-- The snapshot returned by getRateLimitStatus. -/
structure RateLimitStatus where
  requestsInWindow : Nat
  maxRequests : Nat
  remaining : Int
  windowMs : Nat
  resetTime : Int
deriving DecidableEq

/-- getRateLimitStatus(): counts the timestamps inside the trailing
window into a local list without writing any instance field; the reset
instant is the oldest in-window timestamp (now when there is none or
it is the falsy literal 0) plus the window length. -/
def getRateLimitStatus (st : ClientState) (now : Int) :
    RateLimitStatus × ClientState :=
  let windowStart : Int := now - (st.rateLimitConfig.windowMs : Int)
  let recent := st.requestTimestamps.filter (fun t => decide (windowStart < t))
  ({ requestsInWindow := recent.length,
     maxRequests := st.rateLimitConfig.maxRequests,
     remaining := (st.rateLimitConfig.maxRequests : Int) - (recent.length : Int),
     windowMs := st.rateLimitConfig.windowMs,
     resetTime := (match recent.head? with
                   | some t => if t = 0 then now else t
                   | none => now) + (st.rateLimitConfig.windowMs : Int) }, st)

/-- A deterministic stand-in for JSON.stringify of a cached response,
used only to compute the approximate size statistic. -/
def serializeResponse (r : Response) : String :=
  toString r.status ++ r.statusText ++ r.data ++
    String.join (r.headers.map (fun p => p.1 ++ p.2))

/-- The snapshot returned by getCacheStats. -/
structure CacheStats where
  entries : Nat
  keys : List String
  totalSize : Nat
deriving DecidableEq

/-- getCacheStats(): entry count, key list and approximate serialized
size of the stored values; reads the cache map without writing any
instance field. -/
def getCacheStats (st : ClientState) : CacheStats × ClientState :=
  ({ entries := st.cache.length,
     keys := st.cache.map (fun p => p.1),
     totalSize := (st.cache.map (fun p => serializeResponse p.2)).foldl
       (fun a s => a + s.length) 0 }, st)

/-- The backoff delays recorded in a trace, in order. -/
def delaysOf (evs : List Event) : List Nat :=
  evs.filterMap (fun e => match e with
    | Event.delay d => some d
    | _ => none)

/-- A client built from an empty constructor config: all defaults. -/
def emptyClient : ClientState :=
  { baseURL := "", timeout := 30000, maxRetries := 3, retryDelay := 1000,
    cacheTTL := 300000, authToken := none, refreshToken := none,
    tokenExpiryTime := none, requestInterceptors := [],
    responseInterceptors := [], errorInterceptors := [], cache := [],
    cacheTimers := [],
    rateLimitConfig := { maxRequests := 100, windowMs := 60000 },
    requestTimestamps := [] }

/-- A request issued with no per-call options. -/
def plainConfig : RequestConfig :=
  { method := none, headers := [], data := none, params := none,
    cache := none, cacheTTL := none }

/-- A transport failing with 503 on the first two attempts and
succeeding on the third. -/
def tr503 : Nat → FetchConfig → FetchOutcome := fun i _ =>
  if i < 2 then FetchOutcome.resp 503 "Service Unavailable" [] "overloaded"
  else FetchOutcome.resp 200 "OK" [] "payload"

/-- A transport failing with 404 on every attempt. -/
def tr404 : Nat → FetchConfig → FetchOutcome := fun _ _ =>
  FetchOutcome.resp 404 "Not Found" [] "missing"

/-- A transport succeeding with 200 on every attempt. -/
def tr200 : Nat → FetchConfig → FetchOutcome := fun _ _ =>
  FetchOutcome.resp 200 "OK" [] "payload"

/-- A fixed successful envelope used by cache fixtures. -/
def resp0 : Response :=
  { status := 200, statusText := "OK", headers := [], data := "payload",
    fromCache := false }

/-- A client holding one cached GET entry with its expiry scheduled. -/
def cachedClient : ClientState :=
  { emptyClient with cache := [("GET:/u:", resp0)], cacheTimers := ["GET:/u:"] }

/-- A client with an auth token and a constructor-supplied refresh
token but no recorded expiry instant (setRefreshToken never called). -/
def tokenClient : ClientState :=
  { emptyClient with
    authToken := some { token := "tok", type := "Bearer" },
    refreshToken := some "refresh" }

/-! Helper lemmas shared by the claim theorems. -/

theorem retryRequest_eq (st : ClientState)
    (transport : Nat → FetchConfig → FetchOutcome)
    (url : String) (cfg : RequestConfig) (attempt : Nat) :
    retryRequest st transport url cfg attempt =
      match performRequest st transport attempt url cfg with
      | (Except.ok r, evs) => (Except.ok r, evs)
      | (Except.error e, evs) =>
        if attempt < st.maxRetries ∧ isRetryableError e = true then
          ((retryRequest st transport url cfg (attempt + 1)).1,
           evs ++ Event.delay (st.retryDelay * 2 ^ attempt) ::
             (retryRequest st transport url cfg (attempt + 1)).2)
        else (Except.error e, evs) := by
  unfold retryRequest
  rcases hp : performRequest st transport attempt url cfg with ⟨res, evs⟩
  cases res with
  | ok r =>
    rw [retryAux]
    simp [hp]
  | error e =>
    by_cases hlt : attempt < st.maxRetries
    · have hk : st.maxRetries - attempt = (st.maxRetries - (attempt + 1)) + 1 := by
        omega
      rw [hk, retryAux]
      simp only [hp]
      by_cases hre : isRetryableError e = true
      · simp [hre, hlt]
      · simp [hre, hlt]
    · have hk : st.maxRetries - attempt = 0 := by omega
      rw [hk, retryAux]
      simp [hp, hlt]

theorem perf_transport_mem (st : ClientState)
    (transport : Nat → FetchConfig → FetchOutcome)
    (attempt : Nat) (url : String) (cfg : RequestConfig) :
    Event.transportCall ∈ (performRequest st transport attempt url cfg).2 := by
  unfold performRequest
  cases htr : transport attempt (interceptedConfig st url cfg) with
  | fail => simp [htr]
  | resp status statusText headers body =>
    cases hh : handleResponse status statusText headers body with
    | ok r => simp [htr, hh]
    | error e => simp [htr, hh]

theorem perf_count_transport (st : ClientState)
    (transport : Nat → FetchConfig → FetchOutcome)
    (attempt : Nat) (url : String) (cfg : RequestConfig) :
    ((performRequest st transport attempt url cfg).2).count Event.transportCall
      = 1 := by
  unfold performRequest
  cases htr : transport attempt (interceptedConfig st url cfg) with
  | fail =>
    simp [htr, List.count_append, List.count_eq_zero, List.mem_replicate]
  | resp status statusText headers body =>
    cases hh : handleResponse status statusText headers body with
    | ok r =>
      simp [htr, hh, List.count_append, List.count_cons, List.count_replicate]
    | error e =>
      simp [htr, hh, List.count_append, List.count_eq_zero,
        List.mem_replicate]

theorem perf_delays_nil (st : ClientState)
    (transport : Nat → FetchConfig → FetchOutcome)
    (attempt : Nat) (url : String) (cfg : RequestConfig) :
    delaysOf (performRequest st transport attempt url cfg).2 = [] := by
  unfold performRequest
  cases htr : transport attempt (interceptedConfig st url cfg) with
  | fail =>
    simp only [htr, delaysOf]
    rw [List.filterMap_eq_nil_iff.mpr]
    intro a ha
    rcases List.mem_append.mp ha with h | h
    · rcases List.mem_map.mp h with ⟨x, hx, rfl⟩
      rfl
    · simp only [List.mem_singleton] at h
      subst h
      rfl
  | resp status statusText headers body =>
    cases hh : handleResponse status statusText headers body with
    | ok r =>
      simp only [htr, hh, delaysOf]
      rw [List.filterMap_eq_nil_iff.mpr]
      intro a ha
      rcases List.mem_append.mp ha with h | h
      · rcases List.mem_map.mp h with ⟨x, hx, rfl⟩
        rfl
      · rcases List.mem_cons.mp h with h | h
        · subst h
          rfl
        · rcases List.mem_map.mp h with ⟨x, hx, rfl⟩
          rfl
    | error e =>
      simp only [htr, hh, delaysOf]
      rw [List.filterMap_eq_nil_iff.mpr]
      intro a ha
      rcases List.mem_append.mp ha with h | h
      · rcases List.mem_map.mp h with ⟨x, hx, rfl⟩
        rfl
      · simp only [List.mem_singleton] at h
        subst h
        rfl

theorem perf_no_refresh (st : ClientState)
    (transport : Nat → FetchConfig → FetchOutcome)
    (attempt : Nat) (url : String) (cfg : RequestConfig) :
    Event.refreshCall ∉ (performRequest st transport attempt url cfg).2 := by
  unfold performRequest
  cases htr : transport attempt (interceptedConfig st url cfg) with
  | fail => simp [htr, List.mem_replicate]
  | resp status statusText headers body =>
    cases hh : handleResponse status statusText headers body with
    | ok r => simp [htr, hh, List.mem_replicate]
    | error e => simp [htr, hh, List.mem_replicate]

theorem retryAux_transport_mem (st : ClientState)
    (transport : Nat → FetchConfig → FetchOutcome)
    (url : String) (cfg : RequestConfig) (fuel attempt : Nat) :
    Event.transportCall ∈ (retryAux st transport url cfg fuel attempt).2 := by
  rw [retryAux]
  rcases hp : performRequest st transport attempt url cfg with ⟨res, evs⟩
  have hmem : Event.transportCall ∈ evs := by
    have := perf_transport_mem st transport attempt url cfg
    rw [hp] at this
    exact this
  cases res with
  | ok r => simpa using hmem
  | error e =>
    cases fuel with
    | zero => simpa using hmem
    | succ fuel' =>
      by_cases hre : isRetryableError e = true
      · simp only [hre, if_true]
        exact List.mem_append_left _ hmem
      · simp only [hre, if_false]
        simpa using hmem

theorem retryAux_no_refresh (st : ClientState)
    (transport : Nat → FetchConfig → FetchOutcome)
    (url : String) (cfg : RequestConfig) :
    ∀ fuel attempt,
      Event.refreshCall ∉ (retryAux st transport url cfg fuel attempt).2 := by
  intro fuel
  induction fuel with
  | zero =>
    intro attempt
    rw [retryAux]
    rcases hp : performRequest st transport attempt url cfg with ⟨res, evs⟩
    have hnot : Event.refreshCall ∉ evs := by
      have := perf_no_refresh st transport attempt url cfg
      rw [hp] at this
      exact this
    cases res with
    | ok r => simpa using hnot
    | error e => simpa using hnot
  | succ fuel' ih =>
    intro attempt
    rw [retryAux]
    rcases hp : performRequest st transport attempt url cfg with ⟨res, evs⟩
    have hnot : Event.refreshCall ∉ evs := by
      have := perf_no_refresh st transport attempt url cfg
      rw [hp] at this
      exact this
    cases res with
    | ok r => simpa using hnot
    | error e =>
      by_cases hre : isRetryableError e = true
      · simp only [hre, if_true, List.mem_append, List.mem_cons]
        rintro (h | h | h)
        · exact hnot h
        · cases h
        · exact ih (attempt + 1) h
      · simp only [hre, if_false]
        simpa using hnot

theorem retry_transport_mem (st : ClientState)
    (transport : Nat → FetchConfig → FetchOutcome)
    (url : String) (cfg : RequestConfig) (attempt : Nat) :
    Event.transportCall ∈ (retryRequest st transport url cfg attempt).2 :=
  retryAux_transport_mem st transport url cfg (st.maxRetries - attempt) attempt

theorem retry_no_refresh (st : ClientState)
    (transport : Nat → FetchConfig → FetchOutcome)
    (url : String) (cfg : RequestConfig) (attempt : Nat) :
    Event.refreshCall ∉ (retryRequest st transport url cfg attempt).2 :=
  retryAux_no_refresh st transport url cfg (st.maxRetries - attempt) attempt

theorem checkRateLimit_lt (cfg : RateLimitConfig) (now : Int) (ts : List Int)
    (h : (ts.filter (fun t => decide (now - (cfg.windowMs : Int) < t))).length
          < cfg.maxRequests) :
    checkRateLimit cfg now ts =
      (Except.ok (),
       ts.filter (fun t => decide (now - (cfg.windowMs : Int) < t)) ++ [now]) := by
  unfold checkRateLimit
  simp only []
  rw [if_neg]
  omega

theorem checkRateLimit_ge (cfg : RateLimitConfig) (now : Int) (ts : List Int)
    (h : cfg.maxRequests ≤
          (ts.filter (fun t => decide (now - (cfg.windowMs : Int) < t))).length) :
    checkRateLimit cfg now ts =
      (Except.error (ceilSeconds ((cfg.windowMs : Int) -
         (now - (ts.filter (fun t => decide (now - (cfg.windowMs : Int) < t))).headD 0))),
       ts.filter (fun t => decide (now - (cfg.windowMs : Int) < t))) := by
  unfold checkRateLimit
  simp only []
  rw [if_pos h]

theorem ceilSeconds_pos (w : Int) (h : 1 ≤ w) : 0 < ceilSeconds w := by
  unfold ceilSeconds
  have h1 : (1000 : Int) ≤ w + 999 := by omega
  have h2 : (1000 : Int).ediv 1000 ≤ (w + 999).ediv 1000 :=
    Int.ediv_le_ediv (by norm_num) h1
  have h3 : (1000 : Int).ediv 1000 = 1 := by decide
  omega

theorem mapGet_mapDelete_self {α : Type} (m : List (String × α)) (k : String) :
    mapGet (mapDelete m k) k = none := by
  unfold mapGet mapDelete
  rw [List.find?_eq_none.mpr]
  intro p hp
  have := List.of_mem_filter hp
  simpa using this

theorem delaysOf_append (a b : List Event) :
    delaysOf (a ++ b) = delaysOf a ++ delaysOf b := by
  simp [delaysOf]

theorem delaysOf_delay_cons (d : Nat) (l : List Event) :
    delaysOf (Event.delay d :: l) = d :: delaysOf l := by
  simp [delaysOf]

theorem perf_result_resp (st : ClientState)
    (transport : Nat → FetchConfig → FetchOutcome)
    (attempt : Nat) (url : String) (cfg : RequestConfig)
    (s : Nat) (t : String) (hd : List (String × String)) (b : String)
    (h : transport attempt (interceptedConfig st url cfg) =
      FetchOutcome.resp s t hd b) :
    (performRequest st transport attempt url cfg).1 =
      if 200 ≤ s ∧ s < 300 then
        Except.ok (executeResponseInterceptors st.responseInterceptors
          { status := s, statusText := t, headers := hd, data := b,
            fromCache := false })
      else Except.error (ApiError.http s b hd) := by
  unfold performRequest handleResponse
  by_cases hs : 200 ≤ s ∧ s < 300
  · simp [h, hs]
  · simp [h, hs]

/-- C1: an error raised during an attempt is retried exactly when the
attempt count is below maxRetries and the error is retryable (no
status, or status at least 500), with a backoff delay of
retryDelay * 2 ^ attempt before the retry; a transport answering 503,
503, then 200 under maxRetries = 3 yields the successful result after
exactly the two delays retryDelay * 1 and retryDelay * 2, and a
transport answering 404 is never retried: the status-404 error
surfaces after a single transport call with no delay. -/
theorem retry_backoff_policy (st : ClientState)
    (transport : Nat → FetchConfig → FetchOutcome)
    (url : String) (cfg : RequestConfig) :
    (∀ attempt e evs,
       performRequest st transport attempt url cfg = (Except.error e, evs) →
       ((attempt < st.maxRetries ∧ isRetryableError e = true →
          retryRequest st transport url cfg attempt =
            ((retryRequest st transport url cfg (attempt + 1)).1,
             evs ++ Event.delay (st.retryDelay * 2 ^ attempt) ::
               (retryRequest st transport url cfg (attempt + 1)).2))
        ∧ (¬(attempt < st.maxRetries ∧ isRetryableError e = true) →
            retryRequest st transport url cfg attempt = (Except.error e, evs))))
  ∧ (st.maxRetries = 3 →
      ∀ sa ha ba sb hb bb sc hc bc,
        (∀ c, transport 0 c = FetchOutcome.resp 503 sa ha ba) →
        (∀ c, transport 1 c = FetchOutcome.resp 503 sb hb bb) →
        (∀ c, transport 2 c = FetchOutcome.resp 200 sc hc bc) →
        (retryRequest st transport url cfg 0).1 =
            Except.ok (executeResponseInterceptors st.responseInterceptors
              { status := 200, statusText := sc, headers := hc, data := bc,
                fromCache := false })
          ∧ delaysOf (retryRequest st transport url cfg 0).2 =
              [st.retryDelay * 1, st.retryDelay * 2])
  ∧ (∀ sd hd bd,
      (∀ i c, transport i c = FetchOutcome.resp 404 sd hd bd) →
        (retryRequest st transport url cfg 0).1 =
            Except.error (ApiError.http 404 bd hd)
          ∧ delaysOf (retryRequest st transport url cfg 0).2 = []
          ∧ ((retryRequest st transport url cfg 0).2).count
              Event.transportCall = 1) := by
  refine ⟨?_, ?_, ?_⟩
  · intro attempt e evs hp
    constructor
    · intro hcond
      rw [retryRequest_eq st transport url cfg attempt, hp]
      simp [hcond.1, hcond.2]
    · intro hcond
      rw [retryRequest_eq st transport url cfg attempt, hp]
      simp only []
      rw [if_neg hcond]
  · intro hmax sa ha ba sb hb bb sc hc bc h0 h1 h2
    have hre : isRetryableError (ApiError.http 503 ba ha) = true := by
      simp [isRetryableError, errStatus]
    have hre' : isRetryableError (ApiError.http 503 bb hb) = true := by
      simp [isRetryableError, errStatus]
    rcases hp0 : performRequest st transport 0 url cfg with ⟨res0, evs0⟩
    have hres0 : res0 = Except.error (ApiError.http 503 ba ha) := by
      have := perf_result_resp st transport 0 url cfg 503 sa ha ba
        (h0 (interceptedConfig st url cfg))
      rw [hp0] at this
      simpa using this
    rcases hp1 : performRequest st transport 1 url cfg with ⟨res1, evs1⟩
    have hres1 : res1 = Except.error (ApiError.http 503 bb hb) := by
      have := perf_result_resp st transport 1 url cfg 503 sb hb bb
        (h1 (interceptedConfig st url cfg))
      rw [hp1] at this
      simpa using this
    rcases hp2 : performRequest st transport 2 url cfg with ⟨res2, evs2⟩
    have hres2 : res2 =
        Except.ok (executeResponseInterceptors st.responseInterceptors
          { status := 200, statusText := sc, headers := hc, data := bc,
            fromCache := false }) := by
      have := perf_result_resp st transport 2 url cfg 200 sc hc bc
        (h2 (interceptedConfig st url cfg))
      rw [hp2] at this
      simpa using this
    subst hres0 hres1 hres2
    have e2 : retryRequest st transport url cfg 2 =
        (Except.ok (executeResponseInterceptors st.responseInterceptors
          { status := 200, statusText := sc, headers := hc, data := bc,
            fromCache := false }), evs2) := by
      rw [retryRequest_eq st transport url cfg 2, hp2]
    have e1 : retryRequest st transport url cfg 1 =
        ((retryRequest st transport url cfg 2).1,
         evs1 ++ Event.delay (st.retryDelay * 2 ^ 1) ::
           (retryRequest st transport url cfg 2).2) := by
      rw [retryRequest_eq st transport url cfg 1, hp1]
      simp [hre', hmax]
    have e0 : retryRequest st transport url cfg 0 =
        ((retryRequest st transport url cfg 1).1,
         evs0 ++ Event.delay (st.retryDelay * 2 ^ 0) ::
           (retryRequest st transport url cfg 1).2) := by
      rw [retryRequest_eq st transport url cfg 0, hp0]
      simp [hre, hmax]
    have hd0 : delaysOf evs0 = [] := by
      have := perf_delays_nil st transport 0 url cfg
      rw [hp0] at this
      exact this
    have hd1 : delaysOf evs1 = [] := by
      have := perf_delays_nil st transport 1 url cfg
      rw [hp1] at this
      exact this
    have hd2 : delaysOf evs2 = [] := by
      have := perf_delays_nil st transport 2 url cfg
      rw [hp2] at this
      exact this
    constructor
    · rw [e0, e1, e2]
    · rw [e0]
      simp only [delaysOf_append, delaysOf_delay_cons, hd0]
      rw [e1]
      simp only [delaysOf_append, delaysOf_delay_cons, hd1]
      rw [e2]
      simp only [hd2]
      norm_num
  · intro sd hd bd h404
    have hre : isRetryableError (ApiError.http 404 bd hd) = false := by
      simp [isRetryableError, errStatus]
    rcases hp0 : performRequest st transport 0 url cfg with ⟨res0, evs0⟩
    have hres0 : res0 = Except.error (ApiError.http 404 bd hd) := by
      have := perf_result_resp st transport 0 url cfg 404 sd hd bd
        (h404 0 (interceptedConfig st url cfg))
      rw [hp0] at this
      simpa using this
    subst hres0
    have e0 : retryRequest st transport url cfg 0 =
        (Except.error (ApiError.http 404 bd hd), evs0) := by
      rw [retryRequest_eq st transport url cfg 0, hp0]
      simp [hre]
    have hd0 : delaysOf evs0 = [] := by
      have := perf_delays_nil st transport 0 url cfg
      rw [hp0] at this
      exact this
    have hc0 : evs0.count Event.transportCall = 1 := by
      have := perf_count_transport st transport 0 url cfg
      rw [hp0] at this
      exact this
    exact ⟨by rw [e0], by rw [e0]; exact hd0, by rw [e0]; exact hc0⟩

theorem retry_backoff_policy_witness :
    ((retryRequest emptyClient tr503 "/a" plainConfig 0).1 = Except.ok resp0
      ∧ delaysOf (retryRequest emptyClient tr503 "/a" plainConfig 0).2 =
          [1000 * 1, 1000 * 2])
  ∧ ((retryRequest emptyClient tr404 "/a" plainConfig 0).1 =
        Except.error (ApiError.http 404 "missing" [])
      ∧ delaysOf (retryRequest emptyClient tr404 "/a" plainConfig 0).2 = []) := by
  have h1 := (retry_backoff_policy emptyClient tr503 "/a" plainConfig).2.1 rfl
    "Service Unavailable" [] "overloaded" "Service Unavailable" [] "overloaded"
    "OK" [] "payload" (fun c => rfl) (fun c => rfl) (fun c => rfl)
  have h2 := (retry_backoff_policy emptyClient tr404 "/a" plainConfig).2.2
    "Not Found" [] "missing" (fun i c => rfl)
  exact ⟨⟨h1.1, h1.2⟩, ⟨h2.1, h2.2.1⟩⟩

/-- C2: checkRateLimit prunes timestamps older than the window; when
the remaining count has reached maxRequests the call fails with a
positive wait time equal to the ceiling in seconds of the remaining
window and records no new timestamp; otherwise the current timestamp
is recorded and the call proceeds.  With maxRequests 2 and window 100,
two calls inside the window succeed, the third fails with a positive
wait, and a call after the window elapses succeeds again. -/
theorem rate_limit_enforcement (cfg : RateLimitConfig) (now : Int)
    (ts : List Int) (hmax : 1 ≤ cfg.maxRequests) :
    (cfg.maxRequests ≤
        (ts.filter (fun t => decide (now - (cfg.windowMs : Int) < t))).length →
      ∃ w, checkRateLimit cfg now ts =
          (Except.error w,
           ts.filter (fun t => decide (now - (cfg.windowMs : Int) < t)))
        ∧ 0 < w
        ∧ w = ceilSeconds ((cfg.windowMs : Int) - (now -
            (ts.filter (fun t =>
              decide (now - (cfg.windowMs : Int) < t))).headD 0)))
  ∧ ((ts.filter (fun t => decide (now - (cfg.windowMs : Int) < t))).length
        < cfg.maxRequests →
      checkRateLimit cfg now ts =
        (Except.ok (),
         ts.filter (fun t => decide (now - (cfg.windowMs : Int) < t)) ++ [now]))
  ∧ (checkRateLimit { maxRequests := 2, windowMs := 100 } 0 [] =
        (Except.ok (), [0])
     ∧ checkRateLimit { maxRequests := 2, windowMs := 100 } 10 [0] =
        (Except.ok (), [0, 10])
     ∧ (∃ w, checkRateLimit { maxRequests := 2, windowMs := 100 } 20 [0, 10] =
          (Except.error w, [0, 10]) ∧ 0 < w)
     ∧ checkRateLimit { maxRequests := 2, windowMs := 100 } 111 [0, 10] =
        (Except.ok (), [111])) := by
  refine ⟨?_, ?_, ?_, ?_, ⟨1, rfl, by decide⟩, ?_⟩
  · intro h
    refine ⟨ceilSeconds ((cfg.windowMs : Int) - (now -
      (ts.filter (fun t =>
        decide (now - (cfg.windowMs : Int) < t))).headD 0)),
      checkRateLimit_ge cfg now ts h, ?_, rfl⟩
    rcases hfil : ts.filter (fun t => decide (now - (cfg.windowMs : Int) < t))
      with _ | ⟨a, tl⟩
    · rw [hfil] at h
      simp at h
      omega
    · have hmem : a ∈ ts.filter
          (fun t => decide (now - (cfg.windowMs : Int) < t)) := by
        rw [hfil]
        exact List.mem_cons_self a tl
      have hwin : now - (cfg.windowMs : Int) < a := by
        have := List.of_mem_filter hmem
        simpa using this
      simp only [List.headD_cons]
      exact ceilSeconds_pos _ (by omega)
  · intro h
    exact checkRateLimit_lt cfg now ts h
  · rfl
  · rfl
  · rfl

theorem rate_limit_enforcement_witness :
    (∃ w, checkRateLimit { maxRequests := 2, windowMs := 100 } 20 [0, 10] =
        (Except.error w, [0, 10]) ∧ 0 < w)
  ∧ checkRateLimit { maxRequests := 2, windowMs := 100 } 111 [0, 10] =
      (Except.ok (), [111]) := by
  have h := rate_limit_enforcement { maxRequests := 2, windowMs := 100 } 20
    [0, 10] (by decide)
  exact ⟨h.2.2.2.2.1, h.2.2.2.2.2⟩

/-- C3: a non-POST request that has not opted out of caching and whose
cache key has an entry is answered from the cache (subject to the rate
limiter that runs first): the entry is returned with fromCache true,
the cache is not modified, and neither the transport, nor a retry
delay, nor any request or response interceptor runs; the entry stops
being served once it is cleared or its expiry timer fires. -/
theorem cache_hit_short_circuit (st : ClientState)
    (transport : Nat → FetchConfig → FetchOutcome)
    (now : Int) (url : String) (cfg : RequestConfig) (r : Response)
    (hm : methodIsPOST cfg = false)
    (hc : cfg.cache ≠ some false)
    (hrl : (st.requestTimestamps.filter (fun t =>
        decide (now - (st.rateLimitConfig.windowMs : Int) < t))).length
        < st.rateLimitConfig.maxRequests)
    (hk : mapGet st.cache (generateCacheKey (resolveURL st url) cfg) = some r) :
    (request st transport now url cfg).1 =
        Except.ok { r with fromCache := true }
  ∧ (request st transport now url cfg).2.1.cache = st.cache
  ∧ (request st transport now url cfg).2.1.cacheTimers = st.cacheTimers
  ∧ Event.transportCall ∉ (request st transport now url cfg).2.2
  ∧ Event.reqInterceptorRun ∉ (request st transport now url cfg).2.2
  ∧ Event.respInterceptorRun ∉ (request st transport now url cfg).2.2
  ∧ (∀ d, Event.delay d ∉ (request st transport now url cfg).2.2)
  ∧ (∀ k, mapGet (clearCache st k).cache k = none)
  ∧ (∀ k, st.cacheTimers.contains k = true →
      mapGet (fireCacheExpiry st k).cache k = none) := by
  have hcb : (cfg.cache == some false) = false := by
    exact beq_eq_false_iff_ne.mpr hc
  have hcore : requestCore st transport now url cfg =
      (Except.ok { r with fromCache := true },
       { st with requestTimestamps :=
           st.requestTimestamps.filter (fun t =>
             decide (now - (st.rateLimitConfig.windowMs : Int) < t)) ++ [now] },
       if isTokenExpired st now && st.refreshToken.isSome
       then [Event.refreshCall] else []) := by
    unfold requestCore
    rw [checkRateLimit_lt st.rateLimitConfig now st.requestTimestamps hrl]
    simp only [hm, hcb, Bool.not_false, Bool.and_self, if_true]
    unfold getFromCache
    rw [hk]
  have hreq : request st transport now url cfg =
      (Except.ok { r with fromCache := true },
       { st with requestTimestamps :=
           st.requestTimestamps.filter (fun t =>
             decide (now - (st.rateLimitConfig.windowMs : Int) < t)) ++ [now] },
       if isTokenExpired st now && st.refreshToken.isSome
       then [Event.refreshCall] else []) := by
    unfold request
    rw [hcore]
  refine ⟨by rw [hreq], by rw [hreq], by rw [hreq], ?_, ?_, ?_, ?_, ?_, ?_⟩
  · rw [hreq]
    by_cases hif : isTokenExpired st now && st.refreshToken.isSome = true
    · simp [hif]
    · simp [hif]
  · rw [hreq]
    by_cases hif : isTokenExpired st now && st.refreshToken.isSome = true
    · simp [hif]
    · simp [hif]
  · rw [hreq]
    by_cases hif : isTokenExpired st now && st.refreshToken.isSome = true
    · simp [hif]
    · simp [hif]
  · intro d
    rw [hreq]
    by_cases hif : isTokenExpired st now && st.refreshToken.isSome = true
    · simp [hif]
    · simp [hif]
  · intro k
    unfold clearCache
    exact mapGet_mapDelete_self st.cache k
  · intro k hk'
    unfold fireCacheExpiry
    rw [if_pos hk']
    exact mapGet_mapDelete_self st.cache k

theorem cache_hit_short_circuit_witness :
    (request cachedClient tr404 5 "/u" plainConfig).1 =
        Except.ok { resp0 with fromCache := true }
  ∧ (request cachedClient tr404 5 "/u" plainConfig).2.1.cache =
        cachedClient.cache
  ∧ Event.transportCall ∉ (request cachedClient tr404 5 "/u" plainConfig).2.2
  ∧ Event.reqInterceptorRun ∉
      (request cachedClient tr404 5 "/u" plainConfig).2.2 := by
  have h := cache_hit_short_circuit cachedClient tr404 5 "/u" plainConfig resp0
    rfl (by decide) (by decide) (by decide)
  exact ⟨h.1, h.2.1, h.2.2.2.1, h.2.2.2.2.1⟩

/-- C4: the code contradicts the claim (and its own inline comments,
which say only successful GET responses are cached): the cacheability
test in request only excludes POST, so a PUT issued directly through
request with no cache flag has its successful response written to the
cache.  This theorem evaluates the pipeline at that failing input: a
direct PUT against a fresh client leaves the response stored under the
PUT cache key, with its expiry timer scheduled. -/
theorem put_request_written_to_cache :
    mapGet (request emptyClient tr200 0 "/u"
        { plainConfig with method := some "PUT", data := some "body" }).2.1.cache
        "PUT:/u:" =
      some { status := 200, statusText := "OK", headers := [],
             data := "payload", fromCache := false }
  ∧ (request emptyClient tr200 0 "/u"
        { plainConfig with method := some "PUT", data := some "body" }).2.1.cacheTimers =
      ["PUT:/u:"] := by
  refine ⟨by decide, by decide⟩

/-- C5: a POST request is never served from the cache and never
written to it, whatever the per-call cache flag: the cache and timer
maps are unchanged, and any successful result went through the
transport (a cache-served result produces no transport call). -/
theorem post_never_cached (st : ClientState)
    (transport : Nat → FetchConfig → FetchOutcome)
    (now : Int) (url : String) (cfg : RequestConfig)
    (hm : methodIsPOST cfg = true) :
    (request st transport now url cfg).2.1.cache = st.cache
  ∧ (request st transport now url cfg).2.1.cacheTimers = st.cacheTimers
  ∧ (∀ r, (request st transport now url cfg).1 = Except.ok r →
        Event.transportCall ∈ (request st transport now url cfg).2.2) := by
  have hcore :
      ((requestCore st transport now url cfg).2.1.cache = st.cache
      ∧ (requestCore st transport now url cfg).2.1.cacheTimers = st.cacheTimers)
      ∧ (∀ r, (requestCore st transport now url cfg).1 = Except.ok r →
          Event.transportCall ∈ (requestCore st transport now url cfg).2.2) := by
    unfold requestCore
    rcases hck : checkRateLimit st.rateLimitConfig now st.requestTimestamps
      with ⟨res, ts'⟩
    cases res with
    | error w => simp [hck]
    | ok u =>
      cases u
      have hfalse : (false = true) = False := by simp
      simp only [hck, hm, Bool.not_true, Bool.false_and, hfalse, if_false]
      rcases hres : retryRequest { st with requestTimestamps := ts' }
          transport (resolveURL st url) cfg 0 with ⟨res1, evs1⟩
      simp only [hres]
      cases res1 with
      | ok r1 =>
        refine ⟨⟨rfl, rfl⟩, ?_⟩
        intro r hr
        have := retry_transport_mem { st with requestTimestamps := ts' }
          transport (resolveURL st url) cfg 0
        rw [hres] at this
        simp only [List.mem_append]
        exact Or.inr this
      | error e =>
        refine ⟨⟨rfl, rfl⟩, ?_⟩
        intro r hr
        simp at hr
  unfold request
  rcases h : requestCore st transport now url cfg with ⟨res, st', evs⟩
  rw [h] at hcore
  cases res with
  | ok r =>
    refine ⟨hcore.1.1, hcore.1.2, ?_⟩
    intro r' hr'
    exact hcore.2 r' (by simpa using hr')
  | error e =>
    refine ⟨hcore.1.1, hcore.1.2, ?_⟩
    intro r' hr'
    simp at hr'

theorem post_never_cached_witness :
    (request cachedClient tr200 0 "/u"
        { plainConfig with method := some "POST" }).2.1.cache =
      cachedClient.cache
  ∧ (request cachedClient tr200 0 "/u"
        { plainConfig with method := some "POST" }).2.1.cacheTimers =
      cachedClient.cacheTimers := by
  have h := post_never_cached cachedClient tr200 0 "/u"
    { plainConfig with method := some "POST" } (by decide)
  exact ⟨h.1, h.2.1⟩

/-- C6: every unrecovered error of the pipeline is passed through the
error interceptor chain (the left-to-right fold over the registered
interceptors, so registration order, A before B) and the transformed
error is re-raised; every call to request thus yields either a success
envelope or a raised error built by that chain, with no other return
path. -/
theorem error_chain_and_totality (st : ClientState)
    (transport : Nat → FetchConfig → FetchOutcome)
    (now : Int) (url : String) (cfg : RequestConfig) :
    ((∃ r, (request st transport now url cfg).1 = Except.ok r
         ∧ (requestCore st transport now url cfg).1 = Except.ok r)
     ∨ (∃ e, (requestCore st transport now url cfg).1 = Except.error e
         ∧ (request st transport now url cfg).1 =
             Except.error (executeErrorInterceptors st.errorInterceptors e)))
  ∧ (∀ (A B : ApiError → ApiError) (e : ApiError),
      executeErrorInterceptors (st.errorInterceptors ++ [A, B]) e =
        B (A (executeErrorInterceptors st.errorInterceptors e))) := by
  constructor
  · unfold request
    rcases h : requestCore st transport now url cfg with ⟨res, st', evs⟩
    cases res with
    | ok r => exact Or.inl ⟨r, rfl, rfl⟩
    | error e => exact Or.inr ⟨e, rfl, rfl⟩
  · intro A B e
    simp [executeErrorInterceptors, List.foldl_append]

/-- C7: request interceptors registered A then B are applied A first,
B second, B receiving A's output, on the descriptor handed to the
transport; response interceptors registered A then B are likewise
applied A before B to every successful result.  The chains are
left-to-right sequential folds, so execution is sequential by
construction. -/
theorem interceptor_registration_order (st : ClientState)
    (A B : FetchConfig → FetchConfig) (RA RB : Response → Response)
    (url : String) (cfg : RequestConfig) (r : Response) :
    interceptedConfig
        { st with requestInterceptors := st.requestInterceptors ++ [A, B] }
        url cfg
      = B (A (interceptedConfig st url cfg))
  ∧ executeResponseInterceptors (st.responseInterceptors ++ [RA, RB]) r
      = RB (RA (executeResponseInterceptors st.responseInterceptors r)) := by
  constructor
  · simp [interceptedConfig, executeRequestInterceptors, List.foldl_append,
      buildFetchConfig]
  · simp [executeResponseInterceptors, List.foldl_append]

/-- C8: after clearAllCache the cache statistics report zero entries
and an empty key list, and no expiry timer scheduled before the clear
can fire afterwards (every timer was cancelled, so the firing
transition is a no-op); clearCache and clearAllCache are safe on a
client with no entries and no timers, leaving the state unchanged. -/
theorem clear_all_cache_behavior (st : ClientState) (k : String) :
    (getCacheStats (clearAllCache st)).1.entries = 0
  ∧ (getCacheStats (clearAllCache st)).1.keys = []
  ∧ fireCacheExpiry (clearAllCache st) k = clearAllCache st
  ∧ (st.cache = [] → st.cacheTimers = [] →
      clearCache st k = st ∧ clearAllCache st = st) := by
  refine ⟨rfl, rfl, ?_, ?_⟩
  · unfold fireCacheExpiry clearAllCache
    simp
  · intro h1 h2
    rcases st with ⟨bu, ti, mr, rd, ct, atk, rt, te, ri, rsi, ei, ca, cti, rlc, rts⟩
    dsimp only at h1 h2
    subst h1
    subst h2
    exact ⟨rfl, rfl⟩

theorem clear_all_cache_behavior_witness :
    clearCache emptyClient "GET:/u:" = emptyClient
  ∧ clearAllCache emptyClient = emptyClient
  ∧ (getCacheStats (clearAllCache cachedClient)).1.entries = 0
  ∧ fireCacheExpiry (clearAllCache cachedClient) "GET:/u:" =
      clearAllCache cachedClient := by
  have h1 := clear_all_cache_behavior emptyClient "GET:/u:"
  have h2 := clear_all_cache_behavior cachedClient "GET:/u:"
  exact ⟨(h1.2.2.2 rfl rfl).1, (h1.2.2.2 rfl rfl).2, h2.1, h2.2.2.1⟩

/-- C9: getRateLimitStatus and getCacheStats are read-only snapshots:
modelled as state transformers like every other method, they return
the client state unchanged, and the snapshot fields are functions of
the current timestamps and cache contents. -/
theorem accessors_read_only (st : ClientState) (now : Int) :
    (getRateLimitStatus st now).2 = st
  ∧ (getCacheStats st).2 = st
  ∧ (getRateLimitStatus st now).1.requestsInWindow =
      (st.requestTimestamps.filter (fun t =>
        decide (now - (st.rateLimitConfig.windowMs : Int) < t))).length
  ∧ (getRateLimitStatus st now).1.maxRequests = st.rateLimitConfig.maxRequests
  ∧ (getRateLimitStatus st now).1.remaining =
      (st.rateLimitConfig.maxRequests : Int) -
        ((st.requestTimestamps.filter (fun t =>
          decide (now - (st.rateLimitConfig.windowMs : Int) < t))).length : Int)
  ∧ (getCacheStats st).1.entries = st.cache.length
  ∧ (getCacheStats st).1.keys = st.cache.map (fun p => p.1) :=
  ⟨rfl, rfl, rfl, rfl, rfl, rfl, rfl⟩

/-- C10: when setRefreshToken has never been called the client has no
recorded token expiry instant, so no call to request ever invokes the
refresh hook, whether or not an auth token was installed through
setAuthToken; and the default refresh hook leaves the whole client
state unchanged. -/
theorem no_refresh_without_expiry (st : ClientState)
    (transport : Nat → FetchConfig → FetchOutcome)
    (now : Int) (url : String) (cfg : RequestConfig) (tok ty : String)
    (h : st.tokenExpiryTime = none) :
    Event.refreshCall ∉ (request st transport now url cfg).2.2
  ∧ Event.refreshCall ∉
      (request (setAuthToken st tok ty) transport now url cfg).2.2
  ∧ refreshAuthToken st = st := by
  have key : ∀ s : ClientState, s.tokenExpiryTime = none →
      Event.refreshCall ∉ (request s transport now url cfg).2.2 := by
    intro s hs
    have hexp : isTokenExpired s now = false := by
      unfold isTokenExpired
      rw [hs]
    have hcore : Event.refreshCall ∉ (requestCore s transport now url cfg).2.2 := by
      unfold requestCore
      rw [hexp]
      simp only [Bool.false_and, Bool.false_eq_true, if_false]
      rcases hck : checkRateLimit s.rateLimitConfig now s.requestTimestamps
        with ⟨res, ts'⟩
      cases res with
      | error w => simp
      | ok u =>
        cases u
        rcases hcac : (if (!methodIsPOST cfg && !(cfg.cache == some false)) = true
            then getFromCache { s with requestTimestamps := ts' }.cache
              (generateCacheKey (resolveURL s url) cfg)
            else none) with _ | r
        · simp only [hcac]
          rcases hres : retryRequest { s with requestTimestamps := ts' }
            transport (resolveURL s url) cfg 0 with ⟨res1, evs1⟩
          have hnr := retry_no_refresh { s with requestTimestamps := ts' }
            transport (resolveURL s url) cfg 0
          rw [hres] at hnr
          simp only [hres]
          cases res1 with
          | ok r1 =>
            by_cases hcb : (!methodIsPOST cfg && !(cfg.cache == some false)) = true
            · simp only [hcb, if_true]
              simpa using hnr
            · simp only [hcb, if_false]
              simpa using hnr
          | error e => simpa using hnr
        · simp only [hcac]
          simp
    unfold request
    rcases hc : requestCore s transport now url cfg with ⟨res, s', evs⟩
    rw [hc] at hcore
    cases res with
    | ok r => simpa using hcore
    | error e =>
      simp only [List.mem_append, List.mem_map]
      rintro (hmem | ⟨x, hx, heq⟩)
      · exact hcore (by simpa using hmem)
      · cases heq
  refine ⟨key st h, key (setAuthToken st tok ty) ?_, rfl⟩
  unfold setAuthToken
  simpa using h

theorem no_refresh_without_expiry_witness :
    Event.refreshCall ∉ (request tokenClient tr200 0 "/u" plainConfig).2.2
  ∧ refreshAuthToken tokenClient = tokenClient := by
  have h := no_refresh_without_expiry tokenClient tr200 0 "/u" plainConfig
    "tok2" "Bearer" rfl
  exact ⟨h.1, h.2.2⟩

end APIService
